import Mathlib

/-!
Verification of the raster-aggregation package: a shallow embedding of its
data model (models.py), views (views.py) and shapefile ingestion
(parser.py), with the external GEOS/GDAL geometry operations and the
Aggregator passed in as explicit function arguments.  Database tables are
embedded as lists of records, Django signals as explicit functions on those
lists, and the Celery-driven parse task as a pure state transformer over the
layer's state (parse log, area set, logical clock standing for wall-clock
timestamps).
-/

namespace RasterAggregation

/-- Planar GEOS-style geometry restricted to the polygonal types the package
manipulates: a single polygon (a list of rings, each ring a list of planar
vertices) or a multi-polygon (a list of polygons). -/
inductive GEOSGeometry where
  | polygon (rings : List (List (Int × Int)))
  | multiPolygon (polys : List (List (List (Int × Int))))
  deriving DecidableEq, Repr

/-- Modelled from the spec: `raster_aggregation.utils.convert_to_multipolygon`
is not under src; per the spec, simplified geometries are "normalized so
single polygons become multi-polygons". -/
def convert_to_multipolygon : GEOSGeometry → GEOSGeometry
  | GEOSGeometry.polygon rings => GEOSGeometry.multiPolygon [rings]
  | GEOSGeometry.multiPolygon polys => GEOSGeometry.multiPolygon polys

/-- The web mercator spatial reference id used throughout the package. -/
def WEB_MERCATOR_SRID : Nat := 3857

/-- The fields of an `AggregationLayer` row that other records read through
their foreign key to it. -/
structure AggregationLayerRef where
  id : Nat
  simplification_tolerance : Rat
  deriving DecidableEq, Repr

/-- An `AggregationArea` row (models.py): primary key, name, foreign key to
its layer, the primary multi-polygon geometry and the derived simplified
geometry. -/
structure AggregationArea where
  id : Nat
  name : String
  aggregationlayer : AggregationLayerRef
  geom : GEOSGeometry
  geom_simplified : Option GEOSGeometry
  deriving DecidableEq, Repr

/-- `AggregationArea.save` (models.py lines 95-105): re-derive the simplified
geometry from the area's own `geom` at its own layer's tolerance, normalize
it to a multi-polygon, store it, then persist.  The GEOS topology-preserving
`simplify` operation is an external library call and is passed in as a
function argument. -/
def AggregationArea.save (simplify : GEOSGeometry → Rat → GEOSGeometry)
    (a : AggregationArea) : AggregationArea :=
  { a with
    geom_simplified :=
      some (convert_to_multipolygon
        (simplify a.geom a.aggregationlayer.simplification_tolerance)) }

/-- A Postgres `hstore` value: a finite string-to-string mapping, embedded as
an association list. -/
abbrev Hstore := List (String × String)

/-- Lookup of a key in an hstore mapping. -/
def hstoreLookup (h : Hstore) (k : String) : Option String :=
  (h.find? (fun p => p.1 == k)).map Prod.snd

/-- The keys bound by an hstore mapping. -/
def hstoreKeys (h : Hstore) : List String := h.map Prod.fst

/-- Postgres hstore equality: two hstore values are equal exactly when they
bind the same keys to the same values, irrespective of the order of the
entries, i.e. comparison is as an unordered key-value set. -/
def hstoreBeq (a b : Hstore) : Bool :=
  (hstoreKeys a ++ hstoreKeys b).all
    (fun k => hstoreLookup a k == hstoreLookup b k)

/-- A `ValueCountResult` row (models.py): the cached aggregation computation.
`rasterlayers` is the many-to-many dependency set (raster layer ids),
`layer_names` the alias-to-raster-layer-id hstore, `value` the stored
value-to-count hstore. -/
structure ValueCountResult where
  id : Nat
  aggregationarea : Nat
  rasterlayers : List Nat
  formula : String
  layer_names : Hstore
  zoom : Nat
  units : String
  grouping : String
  value : Hstore
  deriving DecidableEq, Repr

/-- The composite key of `ValueCountResult.Meta.unique_together` (models.py
lines 122-125): two rows collide when area, formula, alias mapping (compared
with hstore map equality), zoom, units and grouping all agree. -/
def sameFingerprint (r s : ValueCountResult) : Bool :=
  r.aggregationarea == s.aggregationarea && r.formula == s.formula &&
    hstoreBeq r.layer_names s.layer_names && r.zoom == s.zoom &&
    r.units == s.units && r.grouping == s.grouping

/-- The table-level invariant enforced by `unique_together`: no two rows of
the table share the composite key tuple. -/
def uniqueFingerprints (db : List ValueCountResult) : Prop :=
  db.Pairwise (fun r s => sameFingerprint r s = false)

/-- Insertion of a row under the `unique_together` constraint: the database
rejects a row whose composite key tuple collides with an existing row. -/
def vcrInsert (db : List ValueCountResult) (r : ValueCountResult) :
    Option (List ValueCountResult) :=
  if db.any (fun s => sameFingerprint s r) then none else some (db ++ [r])

/-- Receiver `remove_aggregation_results_after_rasterlayer_change` (models.py
lines 160-165): on the raster-layer-parser-ended signal for a raster layer,
delete every cached result whose many-to-many dependency set contains that
layer; the remaining table keeps exactly the other rows. -/
def remove_aggregation_results_after_rasterlayer_change (instanceId : Nat)
    (db : List ValueCountResult) : List ValueCountResult :=
  db.filter (fun r => !(r.rasterlayers.contains instanceId))

/-- Receiver `remove_aggregation_results_after_legend_change` (models.py lines
168-173): on a legend save, delete every cached result whose grouping text
equals the legend's id (the integer id is cast to text by the ORM for the
comparison against the `grouping` text column). -/
def remove_aggregation_results_after_legend_change (instanceId : Nat)
    (db : List ValueCountResult) : List ValueCountResult :=
  db.filter (fun r => !(r.grouping == toString instanceId))

/-- Numeric value of a list of decimal digit characters. -/
def digitsVal (cs : List Char) : Nat :=
  cs.foldl (fun n c => n * 10 + (c.toNat - 48)) 0

/-- Parse a nonempty all-digit string as a decimal number, the cast Django
applies to a textual primary key before the id lookup. -/
def parseId (s : String) : Option Nat :=
  if s.data ≠ [] ∧ s.data.all Char.isDigit then some (digitsVal s.data)
  else none

/-- Django `RasterLayer.objects.get(id=layer_id)` with a string id taken from
the hstore values: parse the decimal string and return the layer id when such
a layer exists, else fail (DoesNotExist / invalid literal). -/
def getRasterLayer (rasterDb : List Nat) (s : String) : Option Nat :=
  match parseId s with
  | none => none
  | some n => if rasterDb.contains n then some n else none

/-- Django many-to-many `add`: set semantics, appending the element only when
it is not yet related. -/
def m2mAdd (l : List Nat) (x : Nat) : List Nat :=
  if l.contains x then l else l ++ [x]

/-- `ValueCountResult.save` (models.py lines 130-157): run the Aggregator
(external collaborator; its result is passed in as `aggregation_result`),
store the result with every count converted to its string form, then add
each raster layer referenced by the values of `layer_names` to the
many-to-many dependency set.  A failing layer lookup propagates as a
failure of the whole save. -/
def ValueCountResult.save (rasterDb : List Nat)
    (aggregation_result : List (String × Int)) (r : ValueCountResult) :
    Option ValueCountResult :=
  let r1 := { r with
    value := aggregation_result.map (fun p => (p.1, toString p.2)) }
  (r.layer_names.map Prod.snd).foldlM
    (fun acc v =>
      match getRasterLayer rasterDb v with
      | none => none
      | some lyr => some { acc with rasterlayers := m2mAdd acc.rasterlayers lyr })
    r1

/-- An `AggregationLayerZoomRange` row (models.py lines 63-73): primary key,
foreign keys to group and layer, and the inclusive zoom range. -/
structure AggregationLayerZoomRange where
  id : Nat
  aggregationlayergroup : Nat
  aggregationlayer : Nat
  min_zoom : Int
  max_zoom : Int
  deriving DecidableEq, Repr

/-- Django `QuerySet.first()` on a queryset with no declared ordering: Django
orders such a queryset by primary key before taking the first row, so the
row with the smallest pk among the matches is returned. -/
def querysetFirst : List AggregationLayerZoomRange →
    Option AggregationLayerZoomRange
  | [] => none
  | r :: rs =>
    match querysetFirst rs with
    | none => some r
    | some b => if r.id ≤ b.id then some r else some b

/-- The filter of `VectorTilesView.get` (views.py lines 127-130): zoom-range
rows of the requested group with `min_zoom <= z` and `max_zoom >= z`. -/
def zoomRangeMatches (layergroup : Nat) (z : Int)
    (r : AggregationLayerZoomRange) : Bool :=
  r.aggregationlayergroup == layergroup && decide (r.min_zoom ≤ z) &&
    decide (z ≤ r.max_zoom)

/-- Layer resolution of `VectorTilesView.get` (views.py lines 125-130):
filter the group's zoom-range rows to those covering the requested zoom and
take the first row of the (pk-ordered) queryset. -/
def resolveZoomRange (db : List AggregationLayerZoomRange) (layergroup : Nat)
    (z : Int) : Option AggregationLayerZoomRange :=
  querysetFirst (db.filter (zoomRangeMatches layergroup z))

/-- Layer resolution including the Http404 branch (views.py lines 131-133):
no matching zoom range raises Http404, otherwise the zoom range's layer is
used for the tile. -/
def vectorTilesLayer (db : List AggregationLayerZoomRange) (layergroup : Nat)
    (z : Int) : Except String Nat :=
  match resolveZoomRange db layergroup z with
  | none => Except.error "No layer found for this zoom level"
  | some r => Except.ok r.aggregationlayer

/-- The intersection query of `VectorTilesView.get` (views.py lines 140-145):
restrict the area table to rows of the resolved layer whose geometry
intersects the tile bounds, and annotate each with
`Transform(Intersection(geom, bounds), WEB_MERCATOR_SRID)`.  The GEOS
`intersects` predicate, `intersection` operation and srid `transform` are
external library calls passed in as function arguments. -/
def tileIntersectionQuery
    (intersects : GEOSGeometry → GEOSGeometry → Bool)
    (intersection : GEOSGeometry → GEOSGeometry → GEOSGeometry)
    (transform : Nat → GEOSGeometry → GEOSGeometry)
    (areas : List AggregationArea) (lyr : Nat) (bounds : GEOSGeometry) :
    List (AggregationArea × GEOSGeometry) :=
  (areas.filter
      (fun a => a.aggregationlayer.id == lyr && intersects a.geom bounds)).map
    (fun a => (a, transform WEB_MERCATOR_SRID (intersection a.geom bounds)))

/-- The HTTP outcome of the vector tiles view: a response body with a content
type, or a raised Http404 with its message. -/
inductive TileHttpResult where
  | response (content : String) (content_type : String)
  | http404 (message : String)
  deriving DecidableEq, Repr

/-- One GeoJSON feature string as formatted by views.py line 149: the
geometry is the annotated intersection (serialized by the external GEOS
geojson serializer, passed in), the properties carry the area's id and
name. -/
def geojsonFeature (geojson : GEOSGeometry → String) (a : AggregationArea)
    (g : GEOSGeometry) : String :=
  "\x7b\"geometry\": " ++ geojson g ++ ", \"properties\": \x7b\"id\": " ++
    toString a.id ++ ", \"name\": \"" ++ a.name ++ "\"\x7d\x7d"

/-- The GeoJSON FeatureCollection body assembled by views.py lines 149-151:
the comma-joined feature strings wrapped in a FeatureCollection object. -/
def geojsonFeatureCollection (geojson : GEOSGeometry → String)
    (feats : List (AggregationArea × GEOSGeometry)) : String :=
  "\x7b\"type\": \"FeatureCollection\",\"features\":[" ++
    String.intercalate ","
      (feats.map (fun p => geojsonFeature geojson p.1 p.2)) ++
    "]\x7d"

/-- Format dispatch of `VectorTilesView.get` (views.py lines 147-158): the
`.json` suffix renders the GeoJSON FeatureCollection, the `.pbf` suffix
encodes the (wkb geometry, id, name) triples into the single named layer
"testlayer" with the external `mapbox_vector_tile.encode` (passed in, as is
the GEOS `wkb` serializer), and any other suffix raises Http404. -/
def renderVectorTile (geojson : GEOSGeometry → String)
    (wkb : GEOSGeometry → String)
    (encode : String → List (String × Nat × String) → String)
    (response_format : String)
    (feats : List (AggregationArea × GEOSGeometry)) : TileHttpResult :=
  if response_format == ".json" then
    TileHttpResult.response (geojsonFeatureCollection geojson feats)
      "application/json"
  else if response_format == ".pbf" then
    TileHttpResult.response
      (encode "testlayer" (feats.map (fun p => (wkb p.2, p.1.id, p.1.name))))
      "application/octet-stream"
  else
    TileHttpResult.http404 ("Unknown response format " ++ response_format)

/-- The `MissingQueryParameter` APIException of views.py lines 21-23. -/
structure MissingQueryParameter where
  detail : String
  deriving DecidableEq, Repr

/-- `AggregationAreaValueViewSet.initial` (views.py lines 74-83): reject the
request when the `formula` or the `layers` query parameter is absent, naming
the missing one; `request.GET` is embedded as the list of parameter keys
present on the request. -/
def aggregationAreaValueInitial (get : List String) :
    Except MissingQueryParameter Unit :=
  if !(get.contains "formula") then
    Except.error { detail := "Missing query parameter: formula" }
  else if !(get.contains "layers") then
    Except.error { detail := "Missing query parameter: layers" }
  else
    Except.ok ()

/-- A request to the statistics endpoint: the `initial` hook runs before any
handler, so a raised MissingQueryParameter short-circuits the request and the
aggregation handler is never invoked. -/
def aggregationAreaValueRequest (get : List String)
    (handler : List String → Hstore) : Except MissingQueryParameter Hstore :=
  match aggregationAreaValueInitial get with
  | Except.error e => Except.error e
  | Except.ok _ => Except.ok (handler get)

/-- Python `str.lower()` as used by the parser's name-column check, spelled
over the string's character list. -/
def lowerStr (s : String) : String :=
  String.mk (s.data.map Char.toLower)

/-- One shapefile feature as seen by the ingestion loop (parser.py lines
82-132), together with the outcomes of the external GDAL/GEOS calls made on
it: whether the coordinate transform raises, whether the multipolygon
conversion raises, the GEOS `valid_reason` of the converted geometry, whether
it is empty, and whether the ORM `create` call raises.  `pk` is the primary
key the database assigns on a successful create, `name` the value of the
layer's name column, `geom` the converted geometry. -/
structure Feature where
  fid : Nat
  pk : Nat
  name : String
  transform_ok : Bool
  convert_ok : Bool
  valid_reason : String
  geom_empty : Bool
  create_ok : Bool
  geom : GEOSGeometry
  deriving DecidableEq, Repr

/-- The inputs of one ingestion run (parser.py `parse`), i.e. the outcomes of
the external file, archive and GDAL operations: whether storing the
shapefile locally succeeds, whether the zip archive opens, whether a layer
can be extracted, the layer's attribute fields, whether the layer has a
spatial reference system, and the layer's features. -/
structure ParseInput where
  download_ok : Bool
  zip_ok : Bool
  layer_ok : Bool
  fields : List String
  srs_ok : Bool
  features : List Feature
  deriving Repr

/-- The state of one `AggregationLayer` during ingestion: its id, name
column, simplification tolerance, its append-only parse log (timestamped
entries, timestamps modelled by the logical clock), and its set of
`AggregationArea` rows. -/
structure AggregationLayerState where
  id : Nat
  name_column : String
  simplification_tolerance : Rat
  parse_log : List (Nat × String)
  areas : List AggregationArea
  clock : Nat
  deriving Repr

/-- `AggregationLayer.log` (models.py lines 35-48) as called by the parser
(always without reset): append one entry stamped with the current time to
the parse log and persist. -/
def AggregationLayerState.log (st : AggregationLayerState) (msg : String) :
    AggregationLayerState :=
  { st with
    parse_log := st.parse_log ++ [(st.clock, msg)],
    clock := st.clock + 1 }

/-- The start-of-run log message (parser.py line 21). -/
def startMsg (layerId : Nat) : String :=
  "Started parsing Aggregation Layer " ++ toString layerId

/-- The end-of-run log message (parser.py line 134). -/
def finishMsg (layerId : Nat) : String :=
  "Finished parsing Aggregation Layer " ++ toString layerId

/-- The loop body of parser.py lines 82-132 for one feature: a failed
coordinate transform, a failed multipolygon conversion, an invalid geometry
or an empty geometry logs a warning and skips the feature; otherwise the
`AggregationArea` is created (running the overridden `AggregationArea.save`,
which derives the simplified geometry), and a failing create logs a
warning. -/
def parseFeature (simplify : GEOSGeometry → Rat → GEOSGeometry)
    (st : AggregationLayerState) (feat : Feature) : AggregationLayerState :=
  if !feat.transform_ok then
    st.log ("Warning: Failed to transform feature fid " ++
      toString feat.fid ++ "\n")
  else if !feat.convert_ok then
    st.log ("Warning: Failed to convert feature fid " ++ toString feat.fid ++
      " to multipolygon\n")
  else if !(feat.valid_reason == "Valid Geometry") then
    st.log ("Warning: Found invalid geometry for feature fid " ++
      toString feat.fid ++ "\n")
  else if feat.geom_empty then
    st.log ("Warning: Failed to convert feature fid " ++ toString feat.fid ++
      " to valid geometry\n")
  else if feat.create_ok then
    { st with
      areas := st.areas ++ [AggregationArea.save simplify
        { id := feat.pk, name := feat.name,
          aggregationlayer :=
            { id := st.id,
              simplification_tolerance := st.simplification_tolerance },
          geom := feat.geom, geom_simplified := none }] }
  else
    st.log ("Warning: Failed to create AggregationArea for feature fid " ++
      toString feat.fid ++ "\n")

/-- `AggregationDataParser.parse` (parser.py lines 14-137): log the start of
the run; a failed download, a bad zip archive, an unextractable layer, a
missing name column or a missing spatial reference logs a timestamped error
and aborts the whole run; once all file-level checks pass, the layer's
previous area set is deleted, every feature is processed in turn, and the
end of the run is logged. -/
def AggregationDataParser.parse (simplify : GEOSGeometry → Rat → GEOSGeometry)
    (inp : ParseInput) (st : AggregationLayerState) : AggregationLayerState :=
  let st1 := st.log (startMsg st.id)
  if !inp.download_ok then
    st1.log "Error: Could not download file, aborted parsing"
  else if !inp.zip_ok then
    st1.log "Error: Could not open zipfile, aborted parsing"
  else if !inp.layer_ok then
    st1.log "Error: Failed to extract layer from shapefile, aborted parsing"
  else if !((inp.fields.map lowerStr).contains
      (lowerStr st1.name_column)) then
    st1.log ("Error: Name column \"" ++ st1.name_column ++
      "\" not found, aborted parsing. Available columns: " ++
      String.intercalate ", " inp.fields)
  else if !inp.srs_ok then
    st1.log "Error: Layer srs not specified, aborted parsing"
  else
    let st2 := { st1 with areas := [] }
    let st3 := inp.features.foldl (parseFeature simplify) st2
    st3.log (finishMsg st3.id)

/-- The file/transform-level outcome of an ingestion run: the error message
that aborts the run, or none when all file-level checks pass. -/
def fileLevelError (inp : ParseInput) (st : AggregationLayerState) :
    Option String :=
  if !inp.download_ok then
    some "Error: Could not download file, aborted parsing"
  else if !inp.zip_ok then
    some "Error: Could not open zipfile, aborted parsing"
  else if !inp.layer_ok then
    some "Error: Failed to extract layer from shapefile, aborted parsing"
  else if !((inp.fields.map lowerStr).contains
      (lowerStr st.name_column)) then
    some ("Error: Name column \"" ++ st.name_column ++
      "\" not found, aborted parsing. Available columns: " ++
      String.intercalate ", " inp.fields)
  else if !inp.srs_ok then
    some "Error: Layer srs not specified, aborted parsing"
  else
    none

/-- The per-feature outcome: the warning message the loop body logs for this
feature, or none when the feature yields an `AggregationArea` row. -/
def featureWarning (feat : Feature) : Option String :=
  if !feat.transform_ok then
    some ("Warning: Failed to transform feature fid " ++
      toString feat.fid ++ "\n")
  else if !feat.convert_ok then
    some ("Warning: Failed to convert feature fid " ++ toString feat.fid ++
      " to multipolygon\n")
  else if !(feat.valid_reason == "Valid Geometry") then
    some ("Warning: Found invalid geometry for feature fid " ++
      toString feat.fid ++ "\n")
  else if feat.geom_empty then
    some ("Warning: Failed to convert feature fid " ++ toString feat.fid ++
      " to valid geometry\n")
  else if feat.create_ok then
    none
  else
    some ("Warning: Failed to create AggregationArea for feature fid " ++
      toString feat.fid ++ "\n")

/-- The `AggregationArea` row a successful feature yields. -/
def featureArea (simplify : GEOSGeometry → Rat → GEOSGeometry)
    (layerId : Nat) (tol : Rat) (feat : Feature) : AggregationArea :=
  AggregationArea.save simplify
    { id := feat.pk, name := feat.name,
      aggregationlayer := { id := layerId, simplification_tolerance := tol },
      geom := feat.geom, geom_simplified := none }

/-- The timestamped warning entries the feature loop appends to the parse
log, starting from clock value `c`. -/
def featureWarnLog (c : Nat) : List Feature → List (Nat × String)
  | [] => []
  | f :: fs =>
    match featureWarning f with
    | some w => (c, w) :: featureWarnLog (c + 1) fs
    | none => featureWarnLog c fs

/-- The number of per-feature warnings a feature list produces. -/
def warnCount (fs : List Feature) : Nat :=
  (fs.filterMap featureWarning).length

/-- The area rows the feature loop creates for a feature list. -/
def featureAreas (simplify : GEOSGeometry → Rat → GEOSGeometry)
    (layerId : Nat) (tol : Rat) (fs : List Feature) : List AggregationArea :=
  fs.filterMap (fun f =>
    match featureWarning f with
    | none => some (featureArea simplify layerId tol f)
    | some _ => none)

/-- Example area used to instantiate theorems on concrete data. -/
def areaEx : AggregationArea :=
  { id := 1, name := "Coverall",
    aggregationlayer := { id := 7, simplification_tolerance := 1 / 100 },
    geom := GEOSGeometry.polygon [[(0, 0), (4, 0), (4, 4), (0, 4)]],
    geom_simplified := none }

/-- Example tile bounds used to instantiate theorems on concrete data. -/
def boundsEx : GEOSGeometry :=
  GEOSGeometry.polygon [[(0, 0), (10, 0), (10, 10), (0, 10)]]

/-- Example cached result used to instantiate theorems on concrete data. -/
def vcrEx : ValueCountResult :=
  { id := 1, aggregationarea := 1, rasterlayers := [], formula := "a",
    layer_names := [("a", "1")], zoom := 11, units := "", grouping := "auto",
    value := [] }

/-- A second cached result with a different formula, hence a different
composite key. -/
def vcrEx2 : ValueCountResult :=
  { vcrEx with id := 2, formula := "a * a" }

/-- The concrete result of saving `vcrEx` against a raster table holding
layer 1 with aggregation result `{"0": 5}`. -/
def vcrExSaved : ValueCountResult :=
  { vcrEx with value := [("0", "5")], rasterlayers := [1] }

/-- C5 counterexample data: two zoom ranges of group 1 both cover zoom 6;
this one, created first (pk 1), starts at zoom 5. -/
def zrPkFirst : AggregationLayerZoomRange :=
  { id := 1, aggregationlayergroup := 1, aggregationlayer := 10,
    min_zoom := 5, max_zoom := 10 }

/-- C5 counterexample data: the later-created zoom range (pk 2) with the
strictly lower zoom-range start, naming a different layer. -/
def zrLowStart : AggregationLayerZoomRange :=
  { id := 2, aggregationlayergroup := 1, aggregationlayer := 20,
    min_zoom := 0, max_zoom := 10 }

/-- Example layer state used to instantiate the ingestion theorems. -/
def stEx : AggregationLayerState :=
  { id := 3, name_column := "Name", simplification_tolerance := 1 / 100,
    parse_log := [], areas := [areaEx], clock := 0 }

/-- Example feature that ingests successfully. -/
def featOkEx : Feature :=
  { fid := 0, pk := 9, name := "Area A", transform_ok := true,
    convert_ok := true, valid_reason := "Valid Geometry",
    geom_empty := false, create_ok := true, geom := boundsEx }

/-- Example feature whose coordinate transform fails. -/
def featBadEx : Feature :=
  { featOkEx with fid := 1, transform_ok := false }

/-- Example ingestion input failing at the zip-archive level. -/
def inpAbortEx : ParseInput :=
  { download_ok := true, zip_ok := false, layer_ok := true,
    fields := ["name"], srs_ok := true, features := [featOkEx] }

/-- Example ingestion input passing all file-level checks, with one failing
and one succeeding feature. -/
def inpOkEx : ParseInput :=
  { download_ok := true, zip_ok := true, layer_ok := true,
    fields := ["name"], srs_ok := true, features := [featBadEx, featOkEx] }

/-- C2: after the raster-layer-changed notification for layer `L`, a cached
result survives exactly when it was already cached and its recorded
dependency set does not contain `L`; after the legend-changed notification
for legend `G`, a cached result survives exactly when it was already cached
and its grouping differs from `G`'s identifier.  Matching rows are deleted
as they are, non-matching rows are carried over unchanged. -/
theorem invalidation_receivers_delete_dependents
    (L G : Nat) (db : List ValueCountResult) (r : ValueCountResult) :
    (r ∈ remove_aggregation_results_after_rasterlayer_change L db ↔
      r ∈ db ∧ L ∉ r.rasterlayers) ∧
    (r ∈ remove_aggregation_results_after_legend_change G db ↔
      r ∈ db ∧ r.grouping ≠ toString G) := by
  constructor
  · simp [remove_aggregation_results_after_rasterlayer_change,
      List.mem_filter]
  · simp [remove_aggregation_results_after_legend_change, List.mem_filter]

/-- C4: after every save, `geom_simplified` equals the topology-preserving
simplification of the area's own `geom` at its own layer's tolerance,
normalized to a multi-polygon; `geom` itself is untouched; the stored value
does not depend on the previous `geom_simplified` (so it can never be left
stale); and it is a function of the area's own geometry and tolerance alone
(so it is never taken or cloned from another area: any area with the same
geometry and tolerance yields the same simplified geometry). -/
theorem aggregationarea_save_rederives_simplified
    (simplify : GEOSGeometry → Rat → GEOSGeometry) (a : AggregationArea) :
    (AggregationArea.save simplify a).geom_simplified =
      some (convert_to_multipolygon
        (simplify a.geom a.aggregationlayer.simplification_tolerance)) ∧
    (AggregationArea.save simplify a).geom = a.geom ∧
    (∀ g0 : Option GEOSGeometry,
      AggregationArea.save simplify { a with geom_simplified := g0 } =
        AggregationArea.save simplify a) ∧
    (∀ b : AggregationArea, b.geom = a.geom →
      b.aggregationlayer.simplification_tolerance =
        a.aggregationlayer.simplification_tolerance →
      (AggregationArea.save simplify b).geom_simplified =
        (AggregationArea.save simplify a).geom_simplified) := by
  refine ⟨rfl, rfl, fun g0 => rfl, fun b hg ht => ?_⟩
  simp [AggregationArea.save, hg, ht]

/-- C4 witness: the save of a concrete area, with the identity standing for
the external simplify call, stores the normalized simplification of its own
geometry. -/
theorem aggregationarea_save_rederives_simplified_witness :
    (AggregationArea.save (fun g _ => g) areaEx).geom_simplified =
      some (convert_to_multipolygon areaEx.geom) :=
  (aggregationarea_save_rederives_simplified (fun g _ => g) areaEx).1

/-- C7: the `.json` suffix yields the GeoJSON FeatureCollection whose
features carry the annotated intersection geometry and the area's id and
name; the `.pbf` suffix yields the same (geometry, id, name) triples encoded
by the Mapbox vector tile encoder into the single layer "testlayer"; any
other suffix raises Http404. -/
theorem vector_tiles_response_format (geojson : GEOSGeometry → String)
    (wkb : GEOSGeometry → String)
    (encode : String → List (String × Nat × String) → String)
    (feats : List (AggregationArea × GEOSGeometry)) :
    renderVectorTile geojson wkb encode ".json" feats =
      TileHttpResult.response (geojsonFeatureCollection geojson feats)
        "application/json" ∧
    renderVectorTile geojson wkb encode ".pbf" feats =
      TileHttpResult.response
        (encode "testlayer"
          (feats.map (fun p => (wkb p.2, p.1.id, p.1.name))))
        "application/octet-stream" ∧
    ∀ fmt : String, fmt ≠ ".json" → fmt ≠ ".pbf" →
      renderVectorTile geojson wkb encode fmt feats =
        TileHttpResult.http404 ("Unknown response format " ++ fmt) := by
  refine ⟨rfl, rfl, fun fmt h1 h2 => ?_⟩
  simp [renderVectorTile, h1, h2]

/-- C7 witness: a concrete unknown suffix raises Http404 with the
distinguishing message. -/
theorem vector_tiles_response_format_witness :
    renderVectorTile (fun _ => "") (fun _ => "") (fun _ _ => "") ".xml" [] =
      TileHttpResult.http404 ("Unknown response format " ++ ".xml") :=
  (vector_tiles_response_format (fun _ => "") (fun _ => "") (fun _ _ => "")
    []).2.2 ".xml" (by decide) (by decide)

/-- C8: a statistics request without the `formula` query parameter, or with
`formula` but without `layers`, fails with a MissingQueryParameter whose
detail names the missing field, and the aggregation handler is never run;
with both parameters present the error is not raised and the handler's
result is returned. -/
theorem statistics_missing_parameter
    (get : List String) (handler : List String → Hstore) :
    ("formula" ∉ get →
      aggregationAreaValueRequest get handler =
        Except.error { detail := "Missing query parameter: formula" }) ∧
    ("formula" ∈ get → "layers" ∉ get →
      aggregationAreaValueRequest get handler =
        Except.error { detail := "Missing query parameter: layers" }) ∧
    ("formula" ∈ get → "layers" ∈ get →
      aggregationAreaValueRequest get handler = Except.ok (handler get)) := by
  refine ⟨fun h1 => ?_, fun h1 h2 => ?_, fun h1 h2 => ?_⟩ <;>
    simp [aggregationAreaValueRequest, aggregationAreaValueInitial, *]

/-- C8 witness: with both parameters absent the request fails naming
`formula`; with `formula` present and `layers` absent it fails naming
`layers`; with both present the handler result is returned. -/
theorem statistics_missing_parameter_witness :
    aggregationAreaValueRequest [] (fun _ => []) =
      Except.error { detail := "Missing query parameter: formula" } ∧
    aggregationAreaValueRequest ["formula"] (fun _ => []) =
      Except.error { detail := "Missing query parameter: layers" } ∧
    aggregationAreaValueRequest ["formula", "layers"] (fun _ => [("1", "2")]) =
      Except.ok [("1", "2")] :=
  ⟨(statistics_missing_parameter [] (fun _ => [])).1 (by decide),
   (statistics_missing_parameter ["formula"] (fun _ => [])).2.1 (by decide)
     (by decide),
   (statistics_missing_parameter ["formula", "layers"]
     (fun _ => [("1", "2")])).2.2 (by decide) (by decide)⟩

/-- C6: assuming the srid transform to the working srid (which every stored
geometry and the tile bounds already carry) is the identity, the tile query
emits a pair `(a, g)` exactly when `a` is an area of the resolved layer whose
geometry intersects the tile bounding box and `g` is the geometric
intersection of that area's geometry with the bounding box. -/
theorem vector_tiles_intersection_query
    (intersects : GEOSGeometry → GEOSGeometry → Bool)
    (intersection : GEOSGeometry → GEOSGeometry → GEOSGeometry)
    (transform : Nat → GEOSGeometry → GEOSGeometry)
    (areas : List AggregationArea) (lyr : Nat) (bounds : GEOSGeometry)
    (htransform : ∀ g, transform WEB_MERCATOR_SRID g = g)
    (a : AggregationArea) (g : GEOSGeometry) :
    (a, g) ∈
      tileIntersectionQuery intersects intersection transform areas lyr
        bounds ↔
    (a ∈ areas ∧ a.aggregationlayer.id = lyr ∧
      intersects a.geom bounds = true ∧ g = intersection a.geom bounds) := by
  simp only [tileIntersectionQuery, List.mem_map, List.mem_filter,
    Bool.and_eq_true, beq_iff_eq, Prod.mk.injEq, htransform]
  constructor
  · rintro ⟨x, ⟨hx, hid, hint⟩, hxa, hxg⟩
    subst hxa
    exact ⟨hx, hid, hint, hxg.symm⟩
  · rintro ⟨hx, hid, hint, hg⟩
    exact ⟨a, ⟨hx, hid, hint⟩, rfl, hg.symm⟩

/-- C6 witness: a concrete area of the resolved layer, with the identity
standing for the external GEOS calls, is emitted with its intersection
geometry. -/
theorem vector_tiles_intersection_query_witness :
    ((areaEx, areaEx.geom) ∈
      tileIntersectionQuery (fun _ _ => true) (fun g _ => g) (fun _ g => g)
        [areaEx] 7 boundsEx) ↔
    (areaEx ∈ [areaEx] ∧ areaEx.aggregationlayer.id = 7 ∧ true = true ∧
      areaEx.geom = areaEx.geom) :=
  vector_tiles_intersection_query (fun _ _ => true) (fun g _ => g)
    (fun _ g => g) [areaEx] 7 boundsEx (fun _ => rfl) areaEx areaEx.geom

/-- Helper: a key bound by neither hstore is looked up to none. -/
theorem hstoreLookup_eq_none (h : Hstore) (k : String)
    (hk : k ∉ hstoreKeys h) : hstoreLookup h k = none := by
  unfold hstoreLookup
  have hfind : List.find? (fun p => p.1 == k) h = none := by
    rw [List.find?_eq_none]
    intro p hp
    simp only [beq_iff_eq]
    intro hpk
    exact hk
      (by simpa [hstoreKeys, hpk] using List.mem_map_of_mem Prod.fst hp)
  rw [hfind]
  rfl

/-- Helper: hstore equality compares the two mappings as unordered key-value
sets, i.e. it holds exactly when every key is bound to the same value (or
unbound) on both sides. -/
theorem hstoreBeq_iff (a b : Hstore) :
    hstoreBeq a b = true ↔ ∀ k, hstoreLookup a k = hstoreLookup b k := by
  simp only [hstoreBeq, List.all_eq_true, beq_iff_eq]
  constructor
  · intro hall k
    by_cases hka : k ∈ hstoreKeys a
    · exact hall k (List.mem_append_left _ hka)
    · by_cases hkb : k ∈ hstoreKeys b
      · exact hall k (List.mem_append_right _ hkb)
      · rw [hstoreLookup_eq_none a k hka, hstoreLookup_eq_none b k hkb]
  · intro hk k _
    exact hk k

/-- Helper: the composite key comparison as a conjunction of field
equalities, with the alias mapping compared as an unordered key-value
set. -/
theorem sameFingerprint_iff (r s : ValueCountResult) :
    sameFingerprint r s = true ↔
      (r.aggregationarea = s.aggregationarea ∧ r.formula = s.formula ∧
        (∀ k, hstoreLookup r.layer_names k = hstoreLookup s.layer_names k) ∧
        r.zoom = s.zoom ∧ r.units = s.units ∧ r.grouping = s.grouping) := by
  simp [sameFingerprint, Bool.and_eq_true, beq_iff_eq, hstoreBeq_iff,
    and_assoc]

/-- Helper: the composite key comparison is symmetric. -/
theorem sameFingerprint_comm (r s : ValueCountResult) :
    sameFingerprint r s = sameFingerprint s r := by
  cases hrs : sameFingerprint r s <;> cases hsr : sameFingerprint s r <;>
    try rfl
  · obtain ⟨h1, h2, h3, h4, h5, h6⟩ := (sameFingerprint_iff s r).mp hsr
    have h' : sameFingerprint r s = true :=
      (sameFingerprint_iff r s).mpr
        ⟨h1.symm, h2.symm, fun k => (h3 k).symm, h4.symm, h5.symm, h6.symm⟩
    rw [h'] at hrs
    exact hrs.symm
  · obtain ⟨h1, h2, h3, h4, h5, h6⟩ := (sameFingerprint_iff r s).mp hrs
    have h' : sameFingerprint s r = true :=
      (sameFingerprint_iff s r).mpr
        ⟨h1.symm, h2.symm, fun k => (h3 k).symm, h4.symm, h5.symm, h6.symm⟩
    rw [h'] at hsr
    exact hsr

/-- C1: inserting under the `unique_together` constraint preserves the table
invariant that no two rows share the composite (area, formula, alias
mapping, zoom, units, grouping) tuple; consequently any two distinct rows of
the resulting table have differing composite key tuples, where the alias
mapping is compared as an unordered key-value set (hstore map equality). -/
theorem valuecountresult_unique_fingerprint
    (db db' : List ValueCountResult) (r : ValueCountResult)
    (hdb : uniqueFingerprints db) (hins : vcrInsert db r = some db') :
    uniqueFingerprints db' ∧
    (∀ a ∈ db', ∀ b ∈ db', a ≠ b → sameFingerprint a b = false) ∧
    (∀ h1 h2 : Hstore, hstoreBeq h1 h2 = true ↔
      ∀ k, hstoreLookup h1 k = hstoreLookup h2 k) := by
  have hcond : (db.any (fun s => sameFingerprint s r)) = false ∧
      db' = db ++ [r] := by
    by_cases hc : (db.any (fun s => sameFingerprint s r)) = true
    · simp [vcrInsert, hc] at hins
    · simp only [Bool.not_eq_true] at hc
      simp [vcrInsert, hc] at hins
      exact ⟨hc, hins.symm⟩
  obtain ⟨hany, hdb'⟩ := hcond
  rw [List.any_eq_false] at hany
  subst hdb'
  have hpair : uniqueFingerprints (db ++ [r]) := by
    rw [uniqueFingerprints, List.pairwise_append]
    refine ⟨hdb, List.pairwise_singleton _ _, ?_⟩
    intro a ha b hb
    rw [List.mem_singleton] at hb
    subst hb
    have := hany a ha
    simpa using this
  refine ⟨hpair, ?_, hstoreBeq_iff⟩
  have hsymm : Symmetric (fun x y : ValueCountResult =>
      sameFingerprint x y = false) := by
    intro x y hxy
    rw [sameFingerprint_comm]
    exact hxy
  exact fun a ha b hb hab => hpair.forall hsymm ha hb hab

/-- C1 witness: inserting a row with a fresh composite key into a singleton
table keeps all composite keys distinct. -/
theorem valuecountresult_unique_fingerprint_witness :
    uniqueFingerprints [vcrEx, vcrEx2] ∧
    (∀ a ∈ [vcrEx, vcrEx2], ∀ b ∈ [vcrEx, vcrEx2], a ≠ b →
      sameFingerprint a b = false) ∧
    (∀ h1 h2 : Hstore, hstoreBeq h1 h2 = true ↔
      ∀ k, hstoreLookup h1 k = hstoreLookup h2 k) :=
  valuecountresult_unique_fingerprint [vcrEx] [vcrEx, vcrEx2] vcrEx2
    (by simp [uniqueFingerprints]) (by rfl)

/-- Helper: many-to-many add relates the added element. -/
theorem m2mAdd_mem_self (l : List Nat) (x : Nat) : x ∈ m2mAdd l x := by
  unfold m2mAdd
  split
  · next hc => exact List.mem_of_elem_eq_true hc
  · next => exact List.mem_append_right _ (List.mem_singleton_self x)

/-- Helper: many-to-many add keeps every existing relation. -/
theorem m2mAdd_mem_mono (l : List Nat) (x y : Nat) (h : y ∈ l) :
    y ∈ m2mAdd l x := by
  unfold m2mAdd
  split
  · exact h
  · exact List.mem_append_left _ h

/-- Helper: the dependency-tracking loop of `ValueCountResult.save` leaves
the stored value untouched, only grows the dependency set, and records every
raster layer it successfully looks up. -/
theorem save_loop_tracks (rasterDb : List Nat) :
    ∀ (vs : List String) (acc r' : ValueCountResult),
      (vs.foldlM
        (fun acc v =>
          match getRasterLayer rasterDb v with
          | none => none
          | some lyr =>
            some { acc with rasterlayers := m2mAdd acc.rasterlayers lyr })
        acc) = some r' →
      r'.value = acc.value ∧
      (∀ x, x ∈ acc.rasterlayers → x ∈ r'.rasterlayers) ∧
      (∀ v ∈ vs, ∃ n, getRasterLayer rasterDb v = some n ∧
        n ∈ r'.rasterlayers)
  | [], acc, r', h => by
    simp only [List.foldlM_nil, Option.pure_def, Option.some.injEq] at h
    subst h
    exact ⟨rfl, fun x hx => hx, by simp⟩
  | v :: vs, acc, r', h => by
    simp only [List.foldlM_cons] at h
    cases hget : getRasterLayer rasterDb v with
    | none => rw [hget] at h; simp at h
    | some lyr =>
      rw [hget] at h
      simp only [Option.bind_eq_bind, Option.some_bind] at h
      obtain ⟨hval, hmono, hrest⟩ := save_loop_tracks rasterDb vs
        { acc with rasterlayers := m2mAdd acc.rasterlayers lyr } r' h
      refine ⟨hval, ?_, ?_⟩
      · intro x hx
        exact hmono x (m2mAdd_mem_mono acc.rasterlayers lyr x hx)
      · intro w hw
        rcases List.mem_cons.mp hw with hw | hw
        · subst hw
          exact ⟨lyr, hget, hmono lyr (m2mAdd_mem_self acc.rasterlayers lyr)⟩
        · exact hrest w hw

/-- C3: when `ValueCountResult.save` completes, the stored value hstore is
the aggregation result with every count converted to its string form, and
the raster-layer dependency set contains every raster layer whose id appears
among the values of the layer-alias mapping. -/
theorem valuecountresult_save_stores_and_tracks (rasterDb : List Nat)
    (aggregation_result : List (String × Int)) (r r' : ValueCountResult)
    (h : ValueCountResult.save rasterDb aggregation_result r = some r') :
    r'.value = aggregation_result.map (fun p => (p.1, toString p.2)) ∧
    ∀ v ∈ r.layer_names.map Prod.snd, ∃ n,
      getRasterLayer rasterDb v = some n ∧ n ∈ r'.rasterlayers := by
  obtain ⟨hval, _, hdeps⟩ :=
    save_loop_tracks rasterDb (r.layer_names.map Prod.snd)
      { r with
        value := aggregation_result.map (fun p => (p.1, toString p.2)) }
      r' h
  exact ⟨hval, hdeps⟩

/-- C3 witness: the concrete save stores the stringified counts and tracks
raster layer 1, the id appearing in the alias mapping. -/
theorem valuecountresult_save_stores_and_tracks_witness :
    vcrExSaved.value =
      [(("0" : String), (5 : Int))].map (fun p => (p.1, toString p.2)) ∧
    ∀ v ∈ vcrEx.layer_names.map Prod.snd, ∃ n,
      getRasterLayer [1] v = some n ∧ n ∈ vcrExSaved.rasterlayers :=
  valuecountresult_save_stores_and_tracks [1] [("0", 5)] vcrEx vcrExSaved
    (by rfl)

/-- Helper: `QuerySet.first` on the pk-ordered queryset returns nothing only
on an empty queryset. -/
theorem querysetFirst_eq_none_iff (l : List AggregationLayerZoomRange) :
    querysetFirst l = none ↔ l = [] := by
  cases l with
  | nil => simp [querysetFirst]
  | cons r rs =>
    simp only [querysetFirst]
    cases querysetFirst rs with
    | none => simp
    | some b =>
      by_cases hc : r.id ≤ b.id <;> simp [hc]

/-- Helper: `QuerySet.first` returns a member of the queryset with the
smallest primary key. -/
theorem querysetFirst_min :
    ∀ (l : List AggregationLayerZoomRange) (r : AggregationLayerZoomRange),
      querysetFirst l = some r → r ∈ l ∧ ∀ s ∈ l, r.id ≤ s.id
  | [], r, h => by simp [querysetFirst] at h
  | x :: xs, r, h => by
    simp only [querysetFirst] at h
    cases hxs : querysetFirst xs with
    | none =>
      simp only [hxs, Option.some.injEq] at h
      subst h
      have hnil : xs = [] := (querysetFirst_eq_none_iff xs).mp hxs
      subst hnil
      exact ⟨List.mem_singleton_self _, by simp⟩
    | some b =>
      simp only [hxs] at h
      obtain ⟨hbmem, hbmin⟩ := querysetFirst_min xs b hxs
      by_cases hc : x.id ≤ b.id
      · rw [if_pos hc] at h
        simp only [Option.some.injEq] at h
        subst h
        refine ⟨List.mem_cons_self x xs, ?_⟩
        intro s hs
        rcases List.mem_cons.mp hs with hs | hs
        · subst hs; exact Nat.le_refl _
        · exact Nat.le_trans hc (hbmin s hs)
      · rw [if_neg hc] at h
        simp only [Option.some.injEq] at h
        subst h
        refine ⟨List.mem_cons_of_mem x hbmem, ?_⟩
        intro s hs
        rcases List.mem_cons.mp hs with hs | hs
        · subst hs; exact Nat.le_of_not_le hc
        · exact hbmin s hs

/-- C5 counterexample theorem: at zoom 6 the resolution picks layer 10 from
the pk-1 entry although the covering entry `zrLowStart` has the strictly
lowest zoom-range start and names a different layer. -/
theorem vector_tiles_layer_resolution_counterexample :
    resolveZoomRange [zrPkFirst, zrLowStart] 1 6 = some zrPkFirst ∧
    vectorTilesLayer [zrPkFirst, zrLowStart] 1 6 = Except.ok 10 ∧
    zoomRangeMatches 1 6 zrLowStart = true ∧
    zrLowStart.min_zoom < zrPkFirst.min_zoom ∧
    zrLowStart.aggregationlayer ≠ zrPkFirst.aggregationlayer :=
  ⟨by decide, by rfl, by decide, by decide, by decide⟩

/-- C5 (amended): the resolution returns the layer of a zoom-range entry of
the group covering the requested zoom; when several entries cover it the
choice is deterministic, taking the matching entry with the lowest primary
key (Django's implicit pk ordering under `QuerySet.first`); when no entry
covers it the request fails with Http404. -/
theorem vector_tiles_layer_resolution (db : List AggregationLayerZoomRange)
    (layergroup : Nat) (z : Int) :
    (resolveZoomRange db layergroup z = none ↔
      ∀ s ∈ db, zoomRangeMatches layergroup z s = false) ∧
    (∀ r, resolveZoomRange db layergroup z = some r →
      r ∈ db ∧ zoomRangeMatches layergroup z r = true ∧
      vectorTilesLayer db layergroup z = Except.ok r.aggregationlayer ∧
      ∀ s ∈ db, zoomRangeMatches layergroup z s = true → r.id ≤ s.id) ∧
    (resolveZoomRange db layergroup z = none →
      vectorTilesLayer db layergroup z =
        Except.error "No layer found for this zoom level") := by
  refine ⟨?_, ?_, ?_⟩
  · rw [resolveZoomRange, querysetFirst_eq_none_iff, List.filter_eq_nil_iff]
    constructor
    · intro hall s hs
      have := hall s hs
      simpa using this
    · intro hall s hs
      simp [hall s hs]
  · intro r hr
    obtain ⟨hmem, hmin⟩ :=
      querysetFirst_min (db.filter (zoomRangeMatches layergroup z)) r hr
    have hrdb := List.mem_filter.mp hmem
    refine ⟨hrdb.1, hrdb.2, ?_, ?_⟩
    · rw [vectorTilesLayer, hr]
    · intro s hs hmatch
      exact hmin s (List.mem_filter.mpr ⟨hs, hmatch⟩)
  · intro hnone
    rw [vectorTilesLayer, hnone]

/-- C5 witness: on the concrete two-entry table the resolution returns the
pk-1 entry, which covers zoom 6 and has the least pk among covering
entries. -/
theorem vector_tiles_layer_resolution_witness :
    zrPkFirst ∈ [zrPkFirst, zrLowStart] ∧
    zoomRangeMatches 1 6 zrPkFirst = true ∧
    vectorTilesLayer [zrPkFirst, zrLowStart] 1 6 =
      Except.ok zrPkFirst.aggregationlayer ∧
    ∀ s ∈ [zrPkFirst, zrLowStart], zoomRangeMatches 1 6 s = true →
      zrPkFirst.id ≤ s.id :=
  (vector_tiles_layer_resolution [zrPkFirst, zrLowStart] 1 6).2.1 zrPkFirst
    (by decide)

/-- Helper: the ingestion loop body either logs the feature's warning or
appends the feature's area row, exactly as classified by
`featureWarning`. -/
theorem parseFeature_eq (simplify : GEOSGeometry → Rat → GEOSGeometry)
    (st : AggregationLayerState) (f : Feature) :
    parseFeature simplify st f =
      match featureWarning f with
      | some w => st.log w
      | none =>
        { st with
          areas := st.areas ++
            [featureArea simplify st.id st.simplification_tolerance f] } := by
  cases h1 : f.transform_ok <;> cases h2 : f.convert_ok <;>
    cases h3 : f.valid_reason == "Valid Geometry" <;>
    cases h4 : f.geom_empty <;> cases h5 : f.create_ok <;>
      simp [parseFeature, featureWarning, featureArea, h1, h2, h3, h4, h5]

/-- Helper: the effect of the whole ingestion loop on the layer state: the
warnings of the failing features are appended to the log with consecutive
timestamps, the rows of the succeeding features are appended to the area
set, and all other fields are untouched. -/
theorem parse_loop_spec (simplify : GEOSGeometry → Rat → GEOSGeometry) :
    ∀ (fs : List Feature) (st : AggregationLayerState),
      List.foldl (parseFeature simplify) st fs =
        { st with
          parse_log := st.parse_log ++ featureWarnLog st.clock fs,
          areas := st.areas ++
            featureAreas simplify st.id st.simplification_tolerance fs,
          clock := st.clock + warnCount fs }
  | [], st => by
    simp [featureWarnLog, featureAreas, warnCount]
  | f :: fs, st => by
    rw [List.foldl_cons, parseFeature_eq]
    cases hw : featureWarning f with
    | some w =>
      simp only [hw]
      rw [parse_loop_spec simplify fs (st.log w)]
      simp [AggregationLayerState.log, featureWarnLog, featureAreas,
        warnCount, hw, AggregationLayerState.mk.injEq]
      omega
    | none =>
      simp only [hw]
      rw [parse_loop_spec simplify fs
        { st with
          areas := st.areas ++
            [featureArea simplify st.id st.simplification_tolerance f] }]
      simp [featureWarnLog, featureAreas, warnCount, hw,
        AggregationLayerState.mk.injEq]

/-- Helper: a file/transform-level failure makes the run abort right after
logging the start entry and the error entry; nothing else changes. -/
theorem parse_abort (simplify : GEOSGeometry → Rat → GEOSGeometry)
    (inp : ParseInput) (st : AggregationLayerState) (e : String)
    (h : fileLevelError inp st = some e) :
    AggregationDataParser.parse simplify inp st =
      { st with
        parse_log := st.parse_log ++
          [(st.clock, startMsg st.id), (st.clock + 1, e)],
        clock := st.clock + 2 } := by
  unfold fileLevelError at h
  cases h1 : inp.download_ok <;> cases h2 : inp.zip_ok <;>
    cases h3 : inp.layer_ok <;>
    cases h4 : (inp.fields.map lowerStr).contains (lowerStr st.name_column) <;>
    cases h5 : inp.srs_ok <;>
      simp only [h1, h2, h3, h4, h5, Bool.not_true, Bool.not_false,
        reduceIte, Option.some.injEq, reduceCtorEq] at h <;>
      subst h <;>
      simp only [AggregationDataParser.parse, AggregationLayerState.log,
        h1, h2, h3, h4, h5, Bool.not_true, Bool.not_false, reduceIte] <;>
      simp [AggregationLayerState.mk.injEq]

/-- Helper: when every file/transform-level check passes, the run deletes the
prior area set, processes every feature, and logs the finish entry. -/
theorem parse_complete (simplify : GEOSGeometry → Rat → GEOSGeometry)
    (inp : ParseInput) (st : AggregationLayerState)
    (h : fileLevelError inp st = none) :
    AggregationDataParser.parse simplify inp st =
      { st with
        parse_log := st.parse_log ++ [(st.clock, startMsg st.id)] ++
          featureWarnLog (st.clock + 1) inp.features ++
          [(st.clock + 1 + warnCount inp.features, finishMsg st.id)],
        areas := featureAreas simplify st.id st.simplification_tolerance
          inp.features,
        clock := st.clock + 2 + warnCount inp.features } := by
  unfold fileLevelError at h
  cases h1 : inp.download_ok <;> cases h2 : inp.zip_ok <;>
    cases h3 : inp.layer_ok <;>
    cases h4 : (inp.fields.map lowerStr).contains (lowerStr st.name_column) <;>
    cases h5 : inp.srs_ok <;>
      simp only [h1, h2, h3, h4, h5, Bool.not_true, Bool.not_false,
        reduceIte, reduceCtorEq] at h
  simp only [AggregationDataParser.parse, AggregationLayerState.log,
    h1, h2, h3, h4, h5, Bool.not_true, Bool.not_false, reduceIte]
  rw [parse_loop_spec]
  simp [AggregationLayerState.mk.injEq]
  omega

/-- C9: a file/transform-level failure (unreadable source file, bad archive,
unextractable layer, missing name column, missing projection) terminates the
run right after a timestamped error entry is appended to the parse log,
leaving everything else untouched; once all file-level checks pass, the run
processes every feature to completion: each failing feature contributes exactly
one timestamped warning entry and no area row, each succeeding feature
contributes its area row, and the finish entry closes the log. -/
theorem parse_error_level_handling (simplify : GEOSGeometry → Rat → GEOSGeometry)
    (inp : ParseInput) (st : AggregationLayerState) :
    (∀ e, fileLevelError inp st = some e →
      AggregationDataParser.parse simplify inp st =
        { st with
          parse_log := st.parse_log ++
            [(st.clock, startMsg st.id), (st.clock + 1, e)],
          clock := st.clock + 2 }) ∧
    (fileLevelError inp st = none →
      AggregationDataParser.parse simplify inp st =
        { st with
          parse_log := st.parse_log ++ [(st.clock, startMsg st.id)] ++
            featureWarnLog (st.clock + 1) inp.features ++
            [(st.clock + 1 + warnCount inp.features, finishMsg st.id)],
          areas := featureAreas simplify st.id st.simplification_tolerance
            inp.features,
          clock := st.clock + 2 + warnCount inp.features }) :=
  ⟨fun e he => parse_abort simplify inp st e he,
   fun hn => parse_complete simplify inp st hn⟩

/-- C10: when the run aborts at the file/transform level the layer's prior
area set is untouched; the delete-and-recreate of the area set happens only
once every file-level check has succeeded. -/
theorem parse_file_failure_keeps_prior_areas
    (simplify : GEOSGeometry → Rat → GEOSGeometry) (inp : ParseInput)
    (st : AggregationLayerState) :
    (∀ e, fileLevelError inp st = some e →
      (AggregationDataParser.parse simplify inp st).areas = st.areas) ∧
    (fileLevelError inp st = none →
      (AggregationDataParser.parse simplify inp st).areas =
        featureAreas simplify st.id st.simplification_tolerance
          inp.features) := by
  constructor
  · intro e he
    rw [parse_abort simplify inp st e he]
  · intro hn
    rw [parse_complete simplify inp st hn]

/-- C9 witness: on the concrete zip failure the run stops after the
timestamped start and error entries; on the concrete complete run the
failing feature only contributes its timestamped warning and the succeeding
feature its area row, with the finish entry closing the log. -/
theorem parse_error_level_handling_witness :
    AggregationDataParser.parse (fun g _ => g) inpAbortEx stEx =
      { stEx with
        parse_log := stEx.parse_log ++
          [(stEx.clock, startMsg stEx.id),
            (stEx.clock + 1, "Error: Could not open zipfile, aborted parsing")],
        clock := stEx.clock + 2 } ∧
    AggregationDataParser.parse (fun g _ => g) inpOkEx stEx =
      { stEx with
        parse_log := stEx.parse_log ++ [(stEx.clock, startMsg stEx.id)] ++
          featureWarnLog (stEx.clock + 1) inpOkEx.features ++
          [(stEx.clock + 1 + warnCount inpOkEx.features, finishMsg stEx.id)],
        areas := featureAreas (fun g _ => g) stEx.id
          stEx.simplification_tolerance inpOkEx.features,
        clock := stEx.clock + 2 + warnCount inpOkEx.features } :=
  ⟨(parse_error_level_handling (fun g _ => g) inpAbortEx stEx).1
      "Error: Could not open zipfile, aborted parsing" (by rfl),
   (parse_error_level_handling (fun g _ => g) inpOkEx stEx).2 (by rfl)⟩

/-- C10 witness: on the concrete zip failure the prior area set survives; on
the concrete complete run the prior area set is replaced by the rows of the
succeeding features. -/
theorem parse_file_failure_keeps_prior_areas_witness :
    (AggregationDataParser.parse (fun g _ => g) inpAbortEx stEx).areas =
      stEx.areas ∧
    (AggregationDataParser.parse (fun g _ => g) inpOkEx stEx).areas =
      featureAreas (fun g _ => g) stEx.id stEx.simplification_tolerance
        inpOkEx.features :=
  ⟨(parse_file_failure_keeps_prior_areas (fun g _ => g) inpAbortEx stEx).1
      "Error: Could not open zipfile, aborted parsing" (by rfl),
   (parse_file_failure_keeps_prior_areas (fun g _ => g) inpOkEx stEx).2
      (by rfl)⟩

end RasterAggregation
